import Mathlib

/-!
Verification of the BansheeEngine transient GPU-resource pool and the
Vulkan subresource-range partitioning algorithm.

Shallow embedding notes:
* `UINT32` fields are modelled as `Nat`; the `INT32` intermediates of the
  C++ (`leftCut`, `rightCut`, `topCut`, `bottomCut`) are modelled as `Int`,
  which coincides with the machine arithmetic for all values below `2^31`
  (the well-formed inputs the code is specified for).
* `VkImageSubresourceRange.aspectMask` is omitted: the cutting code copies
  it through `output[i] = toCut` unchanged and never reads it.
-/

namespace Banshee

/-- Rectangle in (array layer, mip level) index space, as in
`VkImageSubresourceRange` (aspect mask omitted, see module comment). -/
structure VkImageSubresourceRange where
  baseArrayLayer : Nat
  layerCount : Nat
  baseMipLevel : Nat
  levelCount : Nat
deriving DecidableEq, Repr

/-- Embedding of `cutHorizontal` (BsVulkanUtility.cpp): cuts `toCut` along
the array-layer axis with `cutWith`, producing the left piece, right piece,
middle piece (only when both left and right cuts were made), or `[toCut]`
when no cut was made. -/
def cutHorizontal (toCut cutWith : VkImageSubresourceRange) :
    List VkImageSubresourceRange :=
  let leftCut : Int :=
    (cutWith.baseArrayLayer : Int) - (toCut.baseArrayLayer : Int)
  let rightCut : Int :=
    ((cutWith.baseArrayLayer : Int) + (cutWith.layerCount : Int)) -
      (toCut.baseArrayLayer : Int)
  let left : List VkImageSubresourceRange :=
    if 0 < leftCut ∧
        leftCut < (toCut.baseArrayLayer : Int) + (toCut.layerCount : Int) then
      [{ toCut with baseArrayLayer := toCut.baseArrayLayer,
                    layerCount := leftCut.toNat }]
    else []
  let right : List VkImageSubresourceRange :=
    if 0 < rightCut ∧ rightCut < (toCut.layerCount : Int) then
      [{ toCut with baseArrayLayer := toCut.baseArrayLayer + rightCut.toNat,
                    layerCount := toCut.layerCount - rightCut.toNat }]
    else []
  let middle : List VkImageSubresourceRange :=
    if (left ++ right).length == 2 then
      [{ toCut with baseArrayLayer := toCut.baseArrayLayer + leftCut.toNat,
                    layerCount :=
                      toCut.layerCount - (toCut.layerCount - rightCut.toNat) -
                        leftCut.toNat }]
    else []
  if (left ++ right ++ middle).length == 0 then [toCut]
  else left ++ right ++ middle

/-- Embedding of `cutVertical` (BsVulkanUtility.cpp): the same cutting
logic along the mip-level axis. -/
def cutVertical (toCut cutWith : VkImageSubresourceRange) :
    List VkImageSubresourceRange :=
  let topCut : Int :=
    (cutWith.baseMipLevel : Int) - (toCut.baseMipLevel : Int)
  let bottomCut : Int :=
    ((cutWith.baseMipLevel : Int) + (cutWith.levelCount : Int)) -
      (toCut.baseMipLevel : Int)
  let top : List VkImageSubresourceRange :=
    if 0 < topCut ∧
        topCut < (toCut.baseMipLevel : Int) + (toCut.levelCount : Int) then
      [{ toCut with baseMipLevel := toCut.baseMipLevel,
                    levelCount := topCut.toNat }]
    else []
  let bottom : List VkImageSubresourceRange :=
    if 0 < bottomCut ∧ bottomCut < (toCut.levelCount : Int) then
      [{ toCut with baseMipLevel := toCut.baseMipLevel + bottomCut.toNat,
                    levelCount := toCut.levelCount - bottomCut.toNat }]
    else []
  let middle : List VkImageSubresourceRange :=
    if (top ++ bottom).length == 2 then
      [{ toCut with baseMipLevel := toCut.baseMipLevel + topCut.toNat,
                    levelCount :=
                      toCut.levelCount - (toCut.levelCount - bottomCut.toNat) -
                        topCut.toNat }]
    else []
  if (top ++ bottom ++ middle).length == 0 then [toCut]
  else top ++ bottom ++ middle

/-- Embedding of `VulkanUtility::cutRange`: cut horizontally, then cut each
horizontal piece vertically when its layer extent is contained in
`cutWith`'s layer extent, otherwise emit it unchanged. -/
def cutRange (toCut cutWith : VkImageSubresourceRange) :
    List VkImageSubresourceRange :=
  (cutHorizontal toCut cutWith).flatMap fun range =>
    if cutWith.baseArrayLayer ≤ range.baseArrayLayer ∧
        range.baseArrayLayer + range.layerCount ≤
          cutWith.baseArrayLayer + cutWith.layerCount then
      cutVertical range cutWith
    else [range]

/-- Embedding of `VulkanUtility::rangeOverlaps`: strict interval overlap on
both axes. -/
def rangeOverlaps (a b : VkImageSubresourceRange) : Bool :=
  let aRight : Int := (a.baseArrayLayer : Int) + (a.layerCount : Int)
  let bRight : Int := (b.baseArrayLayer : Int) + (b.layerCount : Int)
  let aBottom : Int := (a.baseMipLevel : Int) + (a.levelCount : Int)
  let bBottom : Int := (b.baseMipLevel : Int) + (b.levelCount : Int)
  decide ((a.baseArrayLayer : Int) < bRight ∧ (b.baseArrayLayer : Int) < aRight ∧
    (a.baseMipLevel : Int) < bBottom ∧ (b.baseMipLevel : Int) < aBottom)

/-- Semantic helper (not from the source): does rectangle `r` contain the
index point `(layer, mip)`. Used to state coverage properties. -/
def containsPoint (r : VkImageSubresourceRange) (layer mip : Nat) : Bool :=
  decide (r.baseArrayLayer ≤ layer ∧ layer < r.baseArrayLayer + r.layerCount ∧
    r.baseMipLevel ≤ mip ∧ mip < r.baseMipLevel + r.levelCount)

/-- Semantic helper (not from the source): rectangle `a` lies entirely
within rectangle `b` (interval containment on both axes). -/
def containedIn (a b : VkImageSubresourceRange) : Bool :=
  decide (b.baseArrayLayer ≤ a.baseArrayLayer ∧
    a.baseArrayLayer + a.layerCount ≤ b.baseArrayLayer + b.layerCount ∧
    b.baseMipLevel ≤ a.baseMipLevel ∧
    a.baseMipLevel + a.levelCount ≤ b.baseMipLevel + b.levelCount)

/-- Semantic helper (not from the source): no two rectangles of the list
overlap, in the sense of the code's own `rangeOverlaps` test. -/
def pairwiseDisjoint : List VkImageSubresourceRange → Bool
  | [] => true
  | r :: rest => rest.all (fun s => !rangeOverlaps r s) && pairwiseDisjoint rest

/-!
GPU resource pool (BsGpuResourcePool.cpp).

Modelling notes:
* Wrapper identity (the C++ pointer used as map key) is modelled as a `Nat`
  id; the pool's `mTextures` / `mBuffers` maps are association lists in
  registration order, holding the wrapper state directly (the weak pointers
  always lock successfully in the single-threaded model, because a wrapper
  unregisters itself before dying).
* The wrapper back-reference `mPool` is `Option Unit`: `some ()` while the
  owning pool is alive, `none` after pool teardown.
* The external factory `TextureManager::createTexture` / `GpuBuffer::create`
  may fail (spec section 7); this is modelled by a `createOk : Bool`
  argument: on success the created object's properties are exactly the
  translated creation descriptor, on failure the handle is `none`.
* Enum values `TU_RENDERTARGET` / `TU_DEPTHSTENCIL` are the engine's usage
  bitmask constants; only their being distinct single bits matters here.
-/

/-- Texture dimensionality, the three variants constructible through the
`POOLED_RENDER_TEXTURE_DESC` factory functions and matched by
`GpuResourcePool::matches`. -/
inductive TextureType
  | TEX_TYPE_2D
  | TEX_TYPE_3D
  | TEX_TYPE_CUBE_MAP
deriving DecidableEq, Repr

/-- TextureUsage bit for render-target capability. -/
def TU_RENDERTARGET : Nat := 0x200

/-- TextureUsage bit for depth-stencil capability. -/
def TU_DEPTHSTENCIL : Nat := 0x400

/-- Buffer kind (`GpuBufferType`). -/
inductive GpuBufferType
  | GBT_STANDARD
  | GBT_STRUCTURED
deriving DecidableEq, Repr

/-- Descriptor for requesting a pooled render texture
(`POOLED_RENDER_TEXTURE_DESC`). Pixel format is an opaque code. -/
structure POOLED_RENDER_TEXTURE_DESC where
  type : TextureType
  width : Nat
  height : Nat
  depth : Nat
  format : Nat
  numSamples : Nat
  flag : Nat
  hwGamma : Bool
deriving DecidableEq, Repr

/-- Texture creation descriptor (`TEXTURE_DESC`); a successfully created
texture reports exactly these values as its properties. -/
structure TEXTURE_DESC where
  type : TextureType
  width : Nat
  height : Nat
  depth : Nat
  format : Nat
  usage : Nat
  hwGamma : Bool
  numSamples : Nat
deriving DecidableEq, Repr

/-- Descriptor for requesting a pooled storage buffer
(`POOLED_STORAGE_BUFFER_DESC`). -/
structure POOLED_STORAGE_BUFFER_DESC where
  type : GpuBufferType
  format : Nat
  numElements : Nat
  elementSize : Nat
deriving DecidableEq, Repr

/-- Buffer creation descriptor (`GPU_BUFFER_DESC`); a successfully created
buffer reports exactly these values as its properties. -/
structure GPU_BUFFER_DESC where
  type : GpuBufferType
  elementSize : Nat
  elementCount : Nat
  format : Nat
  randomGpuWrite : Bool
deriving DecidableEq, Repr

/-- Pooled render-texture wrapper (`PooledRenderTexture`): back-reference to
the pool, free flag, the underlying texture handle (`none` on creation
failure, carrying its properties otherwise) and whether an accompanying
render texture was created. -/
structure PooledRenderTexture where
  mPool : Option Unit
  mIsFree : Bool
  texture : Option TEXTURE_DESC
  renderTexture : Bool
deriving DecidableEq, Repr

/-- Pooled storage-buffer wrapper (`PooledStorageBuffer`). -/
structure PooledStorageBuffer where
  mPool : Option Unit
  mIsFree : Bool
  buffer : Option GPU_BUFFER_DESC
deriving DecidableEq, Repr

/-- Pool state (`GpuResourcePool`): maps from wrapper identity to wrapper,
plus an allocator for fresh identities (modelling fresh pointers). -/
structure GpuResourcePool where
  mTextures : List (Nat × PooledRenderTexture)
  mBuffers : List (Nat × PooledStorageBuffer)
  nextId : Nat
deriving DecidableEq, Repr

/-- Factory helper `POOLED_RENDER_TEXTURE_DESC::create2D`. -/
def POOLED_RENDER_TEXTURE_DESC.create2D (format width height usage samples : Nat)
    (hwGamma : Bool) : POOLED_RENDER_TEXTURE_DESC :=
  { width := width, height := height, depth := 1, format := format,
    numSamples := samples, flag := usage, hwGamma := hwGamma,
    type := TextureType.TEX_TYPE_2D }

/-- Factory helper `POOLED_RENDER_TEXTURE_DESC::create3D`. -/
def POOLED_RENDER_TEXTURE_DESC.create3D (format width height depth usage : Nat) :
    POOLED_RENDER_TEXTURE_DESC :=
  { width := width, height := height, depth := depth, format := format,
    numSamples := 1, flag := usage, hwGamma := false,
    type := TextureType.TEX_TYPE_3D }

/-- Factory helper `POOLED_RENDER_TEXTURE_DESC::createCube`. -/
def POOLED_RENDER_TEXTURE_DESC.createCube (format width height usage : Nat) :
    POOLED_RENDER_TEXTURE_DESC :=
  { width := width, height := height, depth := 1, format := format,
    numSamples := 1, flag := usage, hwGamma := false,
    type := TextureType.TEX_TYPE_CUBE_MAP }

/-- Factory helper `POOLED_STORAGE_BUFFER_DESC::createStandard`. -/
def POOLED_STORAGE_BUFFER_DESC.createStandard (format numElements : Nat) :
    POOLED_STORAGE_BUFFER_DESC :=
  { type := GpuBufferType.GBT_STANDARD, format := format,
    numElements := numElements, elementSize := 0 }

/-- Factory helper `POOLED_STORAGE_BUFFER_DESC::createStructured`; the
format field is the engine's `BF_UNKNOWN` code, modelled as 0. -/
def POOLED_STORAGE_BUFFER_DESC.createStructured (elementSize numElements : Nat) :
    POOLED_STORAGE_BUFFER_DESC :=
  { type := GpuBufferType.GBT_STRUCTURED, format := 0,
    numElements := numElements, elementSize := elementSize }

/-- Embedding of `GpuResourcePool::matches` for textures: candidate
properties against a requested descriptor; the usage check requires the
candidate's flags to be a bitwise superset of the requested flags. -/
def matchesTex (texProps : TEXTURE_DESC) (desc : POOLED_RENDER_TEXTURE_DESC) :
    Bool :=
  texProps.type == desc.type
    && texProps.format == desc.format
    && texProps.width == desc.width
    && texProps.height == desc.height
    && ((texProps.usage &&& desc.flag) == desc.flag)
    && ((desc.type == TextureType.TEX_TYPE_2D
          && texProps.hwGamma == desc.hwGamma
          && texProps.numSamples == desc.numSamples)
        || (desc.type == TextureType.TEX_TYPE_3D
          && texProps.depth == desc.depth)
        || (desc.type == TextureType.TEX_TYPE_CUBE_MAP))

/-- Embedding of `GpuResourcePool::matches` for buffers. -/
def matchesBuf (props : GPU_BUFFER_DESC) (desc : POOLED_STORAGE_BUFFER_DESC) :
    Bool :=
  if props.type == desc.type && props.elementCount == desc.numElements then
    if desc.type == GpuBufferType.GBT_STANDARD then props.format == desc.format
    else props.elementSize == desc.elementSize
  else false

/-- Translation of a pooled texture request into the creation descriptor,
as performed inline by `GpuResourcePool::get`. -/
def toTexDesc (d : POOLED_RENDER_TEXTURE_DESC) : TEXTURE_DESC :=
  { type := d.type, width := d.width, height := d.height, depth := d.depth,
    format := d.format, usage := d.flag, hwGamma := d.hwGamma,
    numSamples := d.numSamples }

/-- Translation of a pooled buffer request into the creation descriptor,
as performed inline by `GpuResourcePool::get`. -/
def toBufDesc (d : POOLED_STORAGE_BUFFER_DESC) : GPU_BUFFER_DESC :=
  { type := d.type, elementSize := d.elementSize,
    elementCount := d.numElements, format := d.format,
    randomGpuWrite := true }

/-- The scan of `GpuResourcePool::get` (texture variant): first wrapper that
is free, has a non-null handle and matches the descriptor. -/
def findFreeTex : List (Nat × PooledRenderTexture) →
    POOLED_RENDER_TEXTURE_DESC → Option Nat
  | [], _ => none
  | (id, w) :: rest, desc =>
    if !w.mIsFree then findFreeTex rest desc
    else match w.texture with
      | none => findFreeTex rest desc
      | some t => if matchesTex t desc then some id else findFreeTex rest desc

/-- The scan of `GpuResourcePool::get` (buffer variant). -/
def findFreeBuf : List (Nat × PooledStorageBuffer) →
    POOLED_STORAGE_BUFFER_DESC → Option Nat
  | [], _ => none
  | (id, w) :: rest, desc =>
    if !w.mIsFree then findFreeBuf rest desc
    else match w.buffer with
      | none => findFreeBuf rest desc
      | some b => if matchesBuf b desc then some id else findFreeBuf rest desc

/-- Update the wrapper stored under `id` (the in-place mutation through the
map's stored pointer). -/
def setEntry {β : Type} (id : Nat) (f : β → β) (l : List (Nat × β)) :
    List (Nat × β) :=
  l.map fun e => if e.1 = id then (e.1, f e.2) else e

/-- Embedding of `GpuResourcePool::get` (texture variant): scan for a free
matching wrapper and mark it in-use, or create, register and return a new
wrapper; `createOk` is the outcome of the external creation factory. -/
def getTex (p : GpuResourcePool) (desc : POOLED_RENDER_TEXTURE_DESC)
    (createOk : Bool) : Nat × GpuResourcePool :=
  match findFreeTex p.mTextures desc with
  | some id =>
    (id, { p with
      mTextures := setEntry id (fun w => { w with mIsFree := false }) p.mTextures })
  | none =>
    let newTextureData : PooledRenderTexture :=
      { mPool := some (), mIsFree := false,
        texture := if createOk then some (toTexDesc desc) else none,
        renderTexture :=
          (desc.flag &&& (TU_RENDERTARGET ||| TU_DEPTHSTENCIL)) != 0 }
    (p.nextId, { p with
      mTextures := p.mTextures ++ [(p.nextId, newTextureData)],
      nextId := p.nextId + 1 })

/-- Embedding of `GpuResourcePool::get` (buffer variant). -/
def getBuf (p : GpuResourcePool) (desc : POOLED_STORAGE_BUFFER_DESC)
    (createOk : Bool) : Nat × GpuResourcePool :=
  match findFreeBuf p.mBuffers desc with
  | some id =>
    (id, { p with
      mBuffers := setEntry id (fun w => { w with mIsFree := false }) p.mBuffers })
  | none =>
    let newBufferData : PooledStorageBuffer :=
      { mPool := some (), mIsFree := false,
        buffer := if createOk then some (toBufDesc desc) else none }
    (p.nextId, { p with
      mBuffers := p.mBuffers ++ [(p.nextId, newBufferData)],
      nextId := p.nextId + 1 })

/-- Embedding of `GpuResourcePool::release` (texture variant): look the
wrapper up by identity and set its free flag. -/
def releaseTex (p : GpuResourcePool) (id : Nat) : GpuResourcePool :=
  { p with
    mTextures := setEntry id (fun w => { w with mIsFree := true }) p.mTextures }

/-- Embedding of `GpuResourcePool::release` (buffer variant). -/
def releaseBuf (p : GpuResourcePool) (id : Nat) : GpuResourcePool :=
  { p with
    mBuffers := setEntry id (fun w => { w with mIsFree := true }) p.mBuffers }

/-- Embedding of the `GpuResourcePool` destructor: clear the back-reference
of every wrapper still registered in either map. -/
def teardown (p : GpuResourcePool) : GpuResourcePool :=
  { p with
    mTextures := p.mTextures.map fun e => (e.1, { e.2 with mPool := none }),
    mBuffers := p.mBuffers.map fun e => (e.1, { e.2 with mPool := none }) }

/-- Embedding of the `PooledRenderTexture` destructor's effect on the pool:
it calls `_unregisterTexture` exactly when the back-reference is set. -/
def texDtorUnregisters (w : PooledRenderTexture) : Bool :=
  w.mPool.isSome

/-- Embedding of the `PooledStorageBuffer` destructor's effect on the pool. -/
def bufDtorUnregisters (w : PooledStorageBuffer) : Bool :=
  w.mPool.isSome

end Banshee


namespace Banshee

/-! Lemmas about the range partitioner. -/

/-- Cutting a range with itself leaves it unchanged on the layer axis. -/
theorem cutHorizontal_self (R : VkImageSubresourceRange) :
    cutHorizontal R R = [R] := by
  simp [cutHorizontal]

/-- Cutting a range with itself leaves it unchanged on the mip axis. -/
theorem cutVertical_self (R : VkImageSubresourceRange) :
    cutVertical R R = [R] := by
  simp [cutVertical]

/-- Shape of `cutHorizontal`: the result is a single rectangle, or three
rectangles of which the first two (the left and right pieces) fail the
layer-containment test that `cutRange` uses to trigger a vertical cut. -/
theorem cutHorizontal_shape (t c : VkImageSubresourceRange) :
    (∃ x, cutHorizontal t c = [x]) ∨
    (∃ L R M, cutHorizontal t c = [L, R, M] ∧
      ¬(c.baseArrayLayer ≤ L.baseArrayLayer ∧
        L.baseArrayLayer + L.layerCount ≤ c.baseArrayLayer + c.layerCount) ∧
      ¬(c.baseArrayLayer ≤ R.baseArrayLayer ∧
        R.baseArrayLayer + R.layerCount ≤ c.baseArrayLayer + c.layerCount)) := by
  simp only [cutHorizontal]
  split_ifs <;> simp_all <;>
    first
    | omega
    | (refine ⟨_, _, ⟨rfl, rfl⟩, ?_, ?_⟩ <;> simp <;> omega)

/-- The vertical cut produces at most three rectangles. -/
theorem cutVertical_length_le (t c : VkImageSubresourceRange) :
    (cutVertical t c).length ≤ 3 := by
  simp only [cutVertical]
  split_ifs <;> simp_all

end Banshee

namespace Banshee

/-- Every piece produced by the horizontal cut, when `cutWith`'s layer
interval is contained in `toCut`'s and has positive extent, has a positive
layer extent inside `toCut`'s layer bounds, and carries `toCut`'s mip
coordinates unchanged. -/
theorem cutHorizontal_mem (t c : VkImageSubresourceRange)
    (h1 : t.baseArrayLayer ≤ c.baseArrayLayer)
    (h2 : c.baseArrayLayer + c.layerCount ≤ t.baseArrayLayer + t.layerCount)
    (h3 : 0 < c.layerCount) :
    ∀ a ∈ cutHorizontal t c,
      t.baseArrayLayer ≤ a.baseArrayLayer ∧
      a.baseArrayLayer + a.layerCount ≤ t.baseArrayLayer + t.layerCount ∧
      0 < a.layerCount ∧
      a.baseMipLevel = t.baseMipLevel ∧ a.levelCount = t.levelCount := by
  simp only [cutHorizontal]
  split_ifs <;> simp_all <;> omega

/-- Every piece produced by the vertical cut, when `cutWith`'s mip interval
is contained in `toCut`'s and has positive extent, has a positive mip
extent inside `toCut`'s mip bounds, and carries `toCut`'s layer coordinates
unchanged. -/
theorem cutVertical_mem (t c : VkImageSubresourceRange)
    (h1 : t.baseMipLevel ≤ c.baseMipLevel)
    (h2 : c.baseMipLevel + c.levelCount ≤ t.baseMipLevel + t.levelCount)
    (h3 : 0 < c.levelCount) :
    ∀ v ∈ cutVertical t c,
      t.baseMipLevel ≤ v.baseMipLevel ∧
      v.baseMipLevel + v.levelCount ≤ t.baseMipLevel + t.levelCount ∧
      0 < v.levelCount ∧
      v.baseArrayLayer = t.baseArrayLayer ∧ v.layerCount = t.layerCount := by
  simp only [cutVertical]
  split_ifs <;> simp_all <;> omega

end Banshee

namespace Banshee

/-- C1 counterexample: in the concrete scenario toCut = layers[0,4) x
mips[0,4), cutWith = layers[1,2) x mips[1,2), the output of cutRange does
contain the cut-out region itself, contrary to the claim that no output
rectangle is the cut-out region. -/
theorem cutRange_interior_contains_cut_region :
    (⟨1, 1, 1, 1⟩ : VkImageSubresourceRange) ∈
      cutRange ⟨0, 4, 0, 4⟩ ⟨1, 1, 1, 1⟩ := by
  decide

/-- C1 (amended): for toCut = layers[0,4) x mips[0,4) and cutWith =
layers[1,2) x mips[1,2), cutRange returns 5 pairwise non-overlapping
rectangles, each inside the original, covering every point of the original
4x4 rectangle exactly once; exactly one of them is the cut-out region
layers[1,2) x mips[1,2) itself. -/
theorem cutRange_interior_partition :
    cutRange ⟨0, 4, 0, 4⟩ ⟨1, 1, 1, 1⟩ =
      [⟨0, 1, 0, 4⟩, ⟨2, 2, 0, 4⟩, ⟨1, 1, 0, 1⟩, ⟨1, 1, 2, 2⟩, ⟨1, 1, 1, 1⟩]
    ∧ (cutRange ⟨0, 4, 0, 4⟩ ⟨1, 1, 1, 1⟩).length = 5
    ∧ pairwiseDisjoint (cutRange ⟨0, 4, 0, 4⟩ ⟨1, 1, 1, 1⟩) = true
    ∧ ((List.range 4).all fun l => (List.range 4).all fun m =>
        ((cutRange ⟨0, 4, 0, 4⟩ ⟨1, 1, 1, 1⟩).countP fun r =>
          containsPoint r l m) == 1) = true
    ∧ ((cutRange ⟨0, 4, 0, 4⟩ ⟨1, 1, 1, 1⟩).all fun r =>
        containedIn r ⟨0, 4, 0, 4⟩) = true
    ∧ ((cutRange ⟨0, 4, 0, 4⟩ ⟨1, 1, 1, 1⟩).countP fun r =>
        r == (⟨1, 1, 1, 1⟩ : VkImageSubresourceRange)) = 1 := by
  decide

/-- C2 counterexample: cutting the range layers[0,1) x mips[0,1) with an
identical copy of itself returns one rectangle, not an empty result set. -/
theorem cutRange_self_not_empty :
    (cutRange ⟨0, 1, 0, 1⟩ ⟨0, 1, 0, 1⟩).length = 1
    ∧ cutRange ⟨0, 1, 0, 1⟩ ⟨0, 1, 0, 1⟩ = [⟨0, 1, 0, 1⟩] := by
  decide

/-- C2 (amended): for every subresource range R, cutRange(R, R) returns
exactly one rectangle, R itself, unchanged. -/
theorem cutRange_self_eq (R : VkImageSubresourceRange) :
    cutRange R R = [R] := by
  simp [cutRange, cutHorizontal_self, cutVertical_self]

/-- C3: evaluation at the failing input. toCut = layers[4,8) x mips[0,1)
and cutWith = layers[10,11) x mips[0,1) do not overlap (by the code's own
rangeOverlaps test), yet cutRange returns the single rectangle
layers[4,10) x mips[0,1), which is not toCut and even extends beyond
toCut's layer bounds. -/
theorem cutRange_disjoint_beyond_edge_eval :
    rangeOverlaps ⟨4, 4, 0, 1⟩ ⟨10, 1, 0, 1⟩ = false
    ∧ cutRange ⟨4, 4, 0, 1⟩ ⟨10, 1, 0, 1⟩ = [⟨4, 6, 0, 1⟩]
    ∧ containedIn ⟨4, 6, 0, 1⟩ ⟨4, 4, 0, 1⟩ = false := by
  decide

/-- C4 counterexample: for toCut = layers[0,1) x mips[4,8) and cutWith =
layers[0,1) x mips[10,11), the output rectangle layers[0,1) x mips[4,10)
does not lie within toCut's bounds. -/
theorem cutRange_output_escapes_bounds :
    cutRange ⟨0, 1, 4, 4⟩ ⟨0, 1, 10, 1⟩ = [⟨0, 1, 4, 6⟩]
    ∧ containedIn ⟨0, 1, 4, 6⟩ ⟨0, 1, 4, 4⟩ = false := by
  decide

/-- C4 (amended): provided cutWith lies within toCut's bounds and has
strictly positive layer and level counts, every rectangle output by
cutRange has strictly positive layerCount and levelCount and lies entirely
within toCut's bounds. -/
theorem cutRange_pieces_within_bounds (t c : VkImageSubresourceRange)
    (hin : containedIn c t = true)
    (hlc : 0 < c.layerCount) (hmc : 0 < c.levelCount) :
    ∀ r ∈ cutRange t c,
      0 < r.layerCount ∧ 0 < r.levelCount ∧ containedIn r t = true := by
  simp only [containedIn, decide_eq_true_eq] at hin
  obtain ⟨hA, hB, hC, hD⟩ := hin
  intro r hr
  simp only [cutRange, List.mem_flatMap] at hr
  obtain ⟨a, ha, hra⟩ := hr
  have hH := cutHorizontal_mem t c hA hB hlc a ha
  by_cases htest : c.baseArrayLayer ≤ a.baseArrayLayer ∧
      a.baseArrayLayer + a.layerCount ≤ c.baseArrayLayer + c.layerCount
  · rw [if_pos htest] at hra
    have hV := cutVertical_mem a c (by omega) (by omega) hmc r hra
    simp only [containedIn, decide_eq_true_eq]
    omega
  · rw [if_neg htest] at hra
    simp only [List.mem_singleton] at hra
    subst hra
    simp only [containedIn, decide_eq_true_eq]
    omega

/-- C4 witness: the amended theorem applied to the concrete interior
scenario and its first output rectangle. -/
theorem cutRange_pieces_within_bounds_witness :
    0 < (⟨0, 1, 0, 4⟩ : VkImageSubresourceRange).layerCount
    ∧ 0 < (⟨0, 1, 0, 4⟩ : VkImageSubresourceRange).levelCount
    ∧ containedIn ⟨0, 1, 0, 4⟩ ⟨0, 4, 0, 4⟩ = true :=
  cutRange_pieces_within_bounds ⟨0, 4, 0, 4⟩ ⟨1, 1, 1, 1⟩
    (by decide) (by decide) (by decide) ⟨0, 1, 0, 4⟩ (by decide)

/-- C7: for every pair of input ranges, cutRange produces at most 5
rectangles, so the internal assertion and the fixed 5-element output array
are safe. -/
theorem cutRange_at_most_five (t c : VkImageSubresourceRange) :
    (cutRange t c).length ≤ 5 := by
  rcases cutHorizontal_shape t c with ⟨x, hx⟩ | ⟨L, R, M, hLRM, hL, hR⟩
  · simp only [cutRange, hx, List.flatMap_cons, List.flatMap_nil,
      List.append_nil]
    split_ifs
    · exact le_trans (cutVertical_length_le x c) (by omega)
    · simp
  · simp only [cutRange, hLRM, List.flatMap_cons, List.flatMap_nil,
      List.append_nil, if_neg hL, if_neg hR]
    split_ifs
    · have := cutVertical_length_le M c
      simp only [List.length_append, List.length_cons, List.length_nil]
      omega
    · simp

end Banshee

namespace Banshee

/-! Association-list lemmas for the pool maps. -/

/-- Unfolding lemma: updating an entry in a cons cell. -/
theorem setEntry_cons {β : Type} (id : Nat) (f : β → β) (e : Nat × β)
    (rest : List (Nat × β)) :
    setEntry id f (e :: rest) =
      (if e.1 = id then (e.1, f e.2) else e) :: setEntry id f rest := rfl

/-- Updating distributes over concatenation. -/
theorem setEntry_append {β : Type} (id : Nat) (f : β → β)
    (l₁ l₂ : List (Nat × β)) :
    setEntry id f (l₁ ++ l₂) = setEntry id f l₁ ++ setEntry id f l₂ :=
  List.map_append _ _ _

/-- Entries whose key differs from the updated one stay in the map. -/
theorem mem_setEntry_of_ne {β : Type} (id : Nat) (f : β → β)
    (l : List (Nat × β)) (e : Nat × β) (he : e ∈ l) (hne : e.1 ≠ id) :
    e ∈ setEntry id f l := by
  simp only [setEntry, List.mem_map]
  exact ⟨e, he, by simp [hne]⟩

/-- Updating a key that is not in the map is a no-op. -/
theorem setEntry_of_not_mem_keys {β : Type} (id : Nat) (f : β → β) :
    ∀ l : List (Nat × β), id ∉ l.map Prod.fst → setEntry id f l = l
  | [], _ => rfl
  | e :: rest, h => by
    simp only [List.map_cons, List.mem_cons, not_or] at h
    rw [setEntry_cons, if_neg fun hh => h.1 hh.symm]
    exact congrArg (List.cons e) (setEntry_of_not_mem_keys id f rest h.2)

/-- With duplicate-free keys, a key determines its entry. -/
theorem entry_unique {β : Type} :
    ∀ l : List (Nat × β), (l.map Prod.fst).Nodup →
      ∀ {id : Nat} {a b : β}, (id, a) ∈ l → (id, b) ∈ l → a = b
  | [], _, _, _, _, ha, _ => by simp at ha
  | e :: rest, h, id, a, b, ha, hb => by
    simp only [List.map_cons, List.nodup_cons] at h
    rcases List.mem_cons.1 ha with ha1 | ha2 <;>
      rcases List.mem_cons.1 hb with hb1 | hb2
    · exact congrArg Prod.snd (ha1.trans hb1.symm)
    · have h1 : id = e.1 := congrArg Prod.fst ha1
      exact absurd (h1 ▸ List.mem_map_of_mem Prod.fst hb2) h.1
    · have h1 : id = e.1 := congrArg Prod.fst hb1
      exact absurd (h1 ▸ List.mem_map_of_mem Prod.fst ha2) h.1
    · exact entry_unique rest h.2 ha2 hb2

/-- With duplicate-free keys, membership determines lookup. -/
theorem lookup_eq_of_mem {β : Type} :
    ∀ l : List (Nat × β), (l.map Prod.fst).Nodup →
      ∀ {id : Nat} {w : β}, (id, w) ∈ l → l.lookup id = some w
  | [], _, _, _, h => by simp at h
  | (k, v) :: rest, h, id, w, hm => by
    simp only [List.map_cons, List.nodup_cons] at h
    rcases List.mem_cons.1 hm with h1 | h2
    · have hk : id = k := congrArg Prod.fst h1
      have hv : w = v := congrArg Prod.snd h1
      subst hk; subst hv
      simp [List.lookup_cons]
    · have hk : id ≠ k := by
        intro hk
        subst hk
        exact h.1 (List.mem_map_of_mem Prod.fst h2)
      simp only [List.lookup_cons, beq_false_of_ne hk]
      exact lookup_eq_of_mem rest h.2 h2

/-- Lookup after an update at the same key applies the update. -/
theorem lookup_setEntry {β : Type} (id : Nat) (f : β → β) :
    ∀ l : List (Nat × β),
      (setEntry id f l).lookup id = (l.lookup id).map f
  | [] => rfl
  | (k, v) :: rest => by
    rw [setEntry_cons]
    by_cases hk : k = id
    · subst hk
      simp [List.lookup_cons]
    · have hk' : id ≠ k := fun hh => hk hh.symm
      simp only [if_neg hk, List.lookup_cons, beq_false_of_ne hk']
      exact lookup_setEntry id f rest

/-- Two updates at the same key compose. -/
theorem setEntry_setEntry {β : Type} (id : Nat) (f g : β → β)
    (l : List (Nat × β)) :
    setEntry id f (setEntry id g l) = setEntry id (fun b => f (g b)) l := by
  simp only [setEntry, List.map_map]
  apply List.map_congr_left
  intro e _
  by_cases hk : e.1 = id <;> simp [Function.comp, hk]

/-- An update that fixes the (unique) stored value is a no-op. -/
theorem setEntry_id_of_mem {β : Type} (h : β → β) :
    ∀ l : List (Nat × β), (l.map Prod.fst).Nodup →
      ∀ {id : Nat} {w : β}, (id, w) ∈ l → h w = w → setEntry id h l = l
  | [], _, _, _, _, _ => rfl
  | e :: rest, hnd, id, w, hm, hw => by
    simp only [List.map_cons, List.nodup_cons] at hnd
    rw [setEntry_cons]
    by_cases hk : e.1 = id
    · have he : e = (id, w) := by
        rcases List.mem_cons.1 hm with h1 | h2
        · exact h1.symm
        · have hmm : id ∈ rest.map Prod.fst := List.mem_map_of_mem Prod.fst h2
          rw [hk] at hnd
          exact absurd hmm hnd.1
      have hrest : id ∉ rest.map Prod.fst := hk ▸ hnd.1
      rw [if_pos hk, setEntry_of_not_mem_keys id h rest hrest, he]
      simp [hw]
    · have hm' : (id, w) ∈ rest := by
        rcases List.mem_cons.1 hm with h1 | h2
        · exact absurd (congrArg Prod.fst h1.symm) hk
        · exact h2
      rw [if_neg hk]
      exact congrArg (List.cons e) (setEntry_id_of_mem h rest hnd.2 hm' hw)

end Banshee

namespace Banshee

/-! Lemmas about the pool scan and matching. -/

/-- A successful texture scan returns a registered wrapper that is free,
has a non-null handle and matches the descriptor. -/
theorem findFreeTex_some :
    ∀ (l : List (Nat × PooledRenderTexture))
      (d : POOLED_RENDER_TEXTURE_DESC) (id : Nat),
      findFreeTex l d = some id →
      ∃ w t, (id, w) ∈ l ∧ w.mIsFree = true ∧ w.texture = some t ∧
        matchesTex t d = true
  | [], _, _, h => by simp [findFreeTex] at h
  | (k, w) :: rest, d, id, h => by
    rw [findFreeTex] at h
    by_cases hf : w.mIsFree
    · simp only [hf, Bool.not_true, Bool.false_eq_true, if_false] at h
      cases ht : w.texture with
      | none =>
        simp only [ht] at h
        obtain ⟨w', t, hmem, hp⟩ := findFreeTex_some rest d id h
        exact ⟨w', t, List.mem_cons_of_mem _ hmem, hp⟩
      | some t =>
        simp only [ht] at h
        by_cases hm : matchesTex t d
        · rw [if_pos hm] at h
          obtain rfl : k = id := Option.some.inj h
          exact ⟨w, t, List.mem_cons_self _ _, hf, ht, hm⟩
        · rw [if_neg hm] at h
          obtain ⟨w', t', hmem, hp⟩ := findFreeTex_some rest d id h
          exact ⟨w', t', List.mem_cons_of_mem _ hmem, hp⟩
    · simp only [Bool.not_eq_true] at hf
      simp only [hf, Bool.not_false, if_true] at h
      obtain ⟨w', t, hmem, hp⟩ := findFreeTex_some rest d id h
      exact ⟨w', t, List.mem_cons_of_mem _ hmem, hp⟩

/-- A successful buffer scan returns a registered wrapper that is free,
has a non-null handle and matches the descriptor. -/
theorem findFreeBuf_some :
    ∀ (l : List (Nat × PooledStorageBuffer))
      (d : POOLED_STORAGE_BUFFER_DESC) (id : Nat),
      findFreeBuf l d = some id →
      ∃ w b, (id, w) ∈ l ∧ w.mIsFree = true ∧ w.buffer = some b ∧
        matchesBuf b d = true
  | [], _, _, h => by simp [findFreeBuf] at h
  | (k, w) :: rest, d, id, h => by
    rw [findFreeBuf] at h
    by_cases hf : w.mIsFree
    · simp only [hf, Bool.not_true, Bool.false_eq_true, if_false] at h
      cases hb : w.buffer with
      | none =>
        simp only [hb] at h
        obtain ⟨w', b, hmem, hp⟩ := findFreeBuf_some rest d id h
        exact ⟨w', b, List.mem_cons_of_mem _ hmem, hp⟩
      | some b =>
        simp only [hb] at h
        by_cases hm : matchesBuf b d
        · rw [if_pos hm] at h
          obtain rfl : k = id := Option.some.inj h
          exact ⟨w, b, List.mem_cons_self _ _, hf, hb, hm⟩
        · rw [if_neg hm] at h
          obtain ⟨w', b', hmem, hp⟩ := findFreeBuf_some rest d id h
          exact ⟨w', b', List.mem_cons_of_mem _ hmem, hp⟩
    · simp only [Bool.not_eq_true] at hf
      simp only [hf, Bool.not_false, if_true] at h
      obtain ⟨w', b, hmem, hp⟩ := findFreeBuf_some rest d id h
      exact ⟨w', b, List.mem_cons_of_mem _ hmem, hp⟩

/-- When the scan of a prefix fails, scanning the concatenation scans the
suffix. -/
theorem findFreeTex_append_none :
    ∀ (l₁ l₂ : List (Nat × PooledRenderTexture))
      (d : POOLED_RENDER_TEXTURE_DESC),
      findFreeTex l₁ d = none →
      findFreeTex (l₁ ++ l₂) d = findFreeTex l₂ d
  | [], _, _, _ => rfl
  | (k, w) :: rest, l₂, d, h => by
    rw [findFreeTex] at h
    rw [List.cons_append, findFreeTex]
    by_cases hf : w.mIsFree
    · simp only [hf, Bool.not_true, Bool.false_eq_true, if_false] at h ⊢
      cases ht : w.texture with
      | none =>
        simp only [ht] at h ⊢
        exact findFreeTex_append_none rest l₂ d h
      | some t =>
        simp only [ht] at h ⊢
        by_cases hm : matchesTex t d
        · rw [if_pos hm] at h; exact absurd h (by simp)
        · rw [if_neg hm] at h ⊢
          exact findFreeTex_append_none rest l₂ d h
    · simp only [Bool.not_eq_true] at hf
      simp only [hf, Bool.not_false, if_true] at h ⊢
      exact findFreeTex_append_none rest l₂ d h

/-- Bitwise self-intersection helper for usage flags. -/
theorem land_self_eq (n : Nat) : n &&& n = n :=
  Nat.eq_of_testBit_eq fun i => by simp

/-- A texture created from a request's translated descriptor matches that
same request. -/
theorem matchesTex_toTexDesc (d : POOLED_RENDER_TEXTURE_DESC) :
    matchesTex (toTexDesc d) d = true := by
  cases h : d.type <;>
    simp [matchesTex, toTexDesc, h, land_self_eq]

end Banshee

namespace Banshee

/-- Empty pool used by the concrete scenarios. -/
def demoPool : GpuResourcePool :=
  { mTextures := [], mBuffers := [], nextId := 0 }

/-- Concrete request: 2D, 256x256, format code 28, render-target usage,
1 sample, no gamma. -/
def rtRequest : POOLED_RENDER_TEXTURE_DESC :=
  POOLED_RENDER_TEXTURE_DESC.create2D 28 256 256 TU_RENDERTARGET 1 false

/-- The same request with no render-target usage requested. -/
def plainRequest : POOLED_RENDER_TEXTURE_DESC :=
  POOLED_RENDER_TEXTURE_DESC.create2D 28 256 256 0 1 false

/-- C5: acquiring a descriptor, releasing the returned wrapper and
acquiring the same descriptor again returns the same wrapper identity
(reuse, not reallocation), for every starting pool state with well-formed
(duplicate-free, allocator-fresh) keys, when resource creation succeeds. -/
theorem pool_acquire_release_acquire_reuses
    (p : GpuResourcePool) (d : POOLED_RENDER_TEXTURE_DESC)
    (hnd : (p.mTextures.map Prod.fst).Nodup)
    (hfresh : ∀ e ∈ p.mTextures, e.1 < p.nextId) :
    (getTex (releaseTex (getTex p d true).2 (getTex p d true).1) d true).1
      = (getTex p d true).1 := by
  cases hf : findFreeTex p.mTextures d with
  | some id =>
    obtain ⟨w, t, hmem, hfree, -, -⟩ := findFreeTex_some _ _ _ hf
    have hrev : setEntry id (fun x => { x with mIsFree := true })
        (setEntry id (fun x => { x with mIsFree := false }) p.mTextures)
        = p.mTextures := by
      rw [setEntry_setEntry]
      exact setEntry_id_of_mem _ _ hnd hmem (by cases w; simp_all)
    simp only [getTex, hf, releaseTex, hrev]
  | none =>
    have hkeys : p.nextId ∉ p.mTextures.map Prod.fst := by
      intro hmem
      obtain ⟨e, he, hh⟩ := List.mem_map.1 hmem
      have := hfresh e he
      omega
    have hset : setEntry p.nextId (fun x => { x with mIsFree := true })
        (p.mTextures ++
          [(p.nextId,
            { mPool := some (), mIsFree := false,
              texture := some (toTexDesc d),
              renderTexture :=
                (d.flag &&& (TU_RENDERTARGET ||| TU_DEPTHSTENCIL)) != 0 })])
        = p.mTextures ++
          [(p.nextId,
            { mPool := some (), mIsFree := true,
              texture := some (toTexDesc d),
              renderTexture :=
                (d.flag &&& (TU_RENDERTARGET ||| TU_DEPTHSTENCIL)) != 0 })] := by
      rw [setEntry_append, setEntry_of_not_mem_keys _ _ _ hkeys]
      simp [setEntry]
    simp only [getTex, hf, releaseTex, if_true]
    rw [hset, findFreeTex_append_none _ _ _ hf]
    simp [findFreeTex, matchesTex_toTexDesc d]

/-- C5 witness: the theorem applied to the empty pool and the concrete
render-target request. -/
theorem pool_acquire_release_acquire_reuses_witness :
    (getTex (releaseTex (getTex demoPool rtRequest true).2
        (getTex demoPool rtRequest true).1) rtRequest true).1
      = (getTex demoPool rtRequest true).1 :=
  pool_acquire_release_acquire_reuses demoPool rtRequest
    (by decide) (by decide)

end Banshee

namespace Banshee

/-- C6 counterexample: acquire the render-target request on an empty pool,
release the returned wrapper, then acquire the identical request without
render-target usage: the pool DOES return the released wrapper (the claim
says it must not). -/
theorem acquire_nonRT_after_RT_counterexample :
    (getTex (releaseTex (getTex demoPool rtRequest true).2
        (getTex demoPool rtRequest true).1) plainRequest true).1
      = (getTex demoPool rtRequest true).1 := by
  decide

/-- C6 (amended): after acquiring and releasing the render-target wrapper,
a request identical except for carrying no render-target usage DOES match
and returns the same wrapper: the usage check only requires the candidate's
flags to be a superset of the requested flags, so extra capabilities never
disqualify a candidate. -/
theorem acquire_superset_usage_reuses :
    matchesTex (toTexDesc rtRequest) plainRequest = true
    ∧ (getTex (releaseTex (getTex demoPool rtRequest true).2
        (getTex demoPool rtRequest true).1) plainRequest true).1
      = (getTex demoPool rtRequest true).1
    ∧ (getTex (releaseTex (getTex demoPool rtRequest true).2
        (getTex demoPool rtRequest true).1) plainRequest true).2.mTextures.length
      = 1 := by
  decide

/-- C8: acquisition never returns a pre-existing registered wrapper whose
underlying handle is null; null-handle wrappers stay registered, unchanged,
in the pool map after the call. -/
theorem pool_acquire_skips_null_wrappers
    (p : GpuResourcePool) (dt : POOLED_RENDER_TEXTURE_DESC)
    (db : POOLED_STORAGE_BUFFER_DESC) (ok : Bool)
    (hndT : (p.mTextures.map Prod.fst).Nodup)
    (hfT : ∀ e ∈ p.mTextures, e.1 < p.nextId)
    (hndB : (p.mBuffers.map Prod.fst).Nodup)
    (hfB : ∀ e ∈ p.mBuffers, e.1 < p.nextId) :
    (∀ w : PooledRenderTexture, ((getTex p dt ok).1, w) ∈ p.mTextures →
      w.texture.isSome = true)
    ∧ (∀ e ∈ p.mTextures, e.2.texture = none →
        e ∈ (getTex p dt ok).2.mTextures)
    ∧ (∀ w : PooledStorageBuffer, ((getBuf p db ok).1, w) ∈ p.mBuffers →
      w.buffer.isSome = true)
    ∧ (∀ e ∈ p.mBuffers, e.2.buffer = none →
        e ∈ (getBuf p db ok).2.mBuffers) := by
  refine ⟨?_, ?_, ?_, ?_⟩
  · cases hf : findFreeTex p.mTextures dt with
    | some id =>
      simp only [getTex, hf]
      intro w hw
      obtain ⟨w', t, hmem, -, ht, -⟩ := findFreeTex_some _ _ _ hf
      rw [entry_unique _ hndT hw hmem, ht]
      rfl
    | none =>
      simp only [getTex, hf]
      intro w hw
      have := hfT _ hw
      omega
  · cases hf : findFreeTex p.mTextures dt with
    | some id =>
      simp only [getTex, hf]
      intro e he hnone
      obtain ⟨w', t, hmem, -, ht, -⟩ := findFreeTex_some _ _ _ hf
      refine mem_setEntry_of_ne _ _ _ _ he fun hk => ?_
      have he' : (id, e.2) ∈ p.mTextures := by
        rw [← hk]
        exact he
      rw [entry_unique _ hndT he' hmem, ht] at hnone
      exact Option.noConfusion hnone
    | none =>
      simp only [getTex, hf]
      intro e he _
      exact List.mem_append_left _ he
  · cases hf : findFreeBuf p.mBuffers db with
    | some id =>
      simp only [getBuf, hf]
      intro w hw
      obtain ⟨w', b, hmem, -, hb, -⟩ := findFreeBuf_some _ _ _ hf
      rw [entry_unique _ hndB hw hmem, hb]
      rfl
    | none =>
      simp only [getBuf, hf]
      intro w hw
      have := hfB _ hw
      omega
  · cases hf : findFreeBuf p.mBuffers db with
    | some id =>
      simp only [getBuf, hf]
      intro e he hnone
      obtain ⟨w', b, hmem, -, hb, -⟩ := findFreeBuf_some _ _ _ hf
      refine mem_setEntry_of_ne _ _ _ _ he fun hk => ?_
      have he' : (id, e.2) ∈ p.mBuffers := by
        rw [← hk]
        exact he
      rw [entry_unique _ hndB he' hmem, hb] at hnone
      exact Option.noConfusion hnone
    | none =>
      simp only [getBuf, hf]
      intro e he _
      exact List.mem_append_left _ he

/-- Stale texture wrapper whose creation failed (null handle), for the
error-handling scenario. -/
def staleTexWrapper : PooledRenderTexture :=
  { mPool := some (), mIsFree := true, texture := none,
    renderTexture := false }

/-- Stale buffer wrapper whose creation failed. -/
def staleBufWrapper : PooledStorageBuffer :=
  { mPool := some (), mIsFree := true, buffer := none }

/-- Pool holding the two stale wrappers. -/
def stalePool : GpuResourcePool :=
  { mTextures := [(0, staleTexWrapper)],
    mBuffers := [(1, staleBufWrapper)],
    nextId := 2 }

/-- C8 witness: on the stale pool, the null-handle texture wrapper is still
registered after an acquisition. -/
theorem pool_acquire_skips_null_wrappers_witness :
    (0, staleTexWrapper) ∈ (getTex stalePool rtRequest true).2.mTextures :=
  (pool_acquire_skips_null_wrappers stalePool rtRequest
      (POOLED_STORAGE_BUFFER_DESC.createStandard 7 16) true
      (by decide) (by decide) (by decide) (by decide)).2.1
    (0, staleTexWrapper) (by decide) rfl

end Banshee

namespace Banshee

/-- C9: pool teardown clears the back-reference of every wrapper still
registered in the texture and buffer maps, so a later wrapper destruction
performs no unregistration call, while identities, free flags, handles and
render-texture views are left unchanged. -/
theorem pool_teardown_clears_backrefs (p : GpuResourcePool) :
    ((teardown p).mTextures.all fun e =>
        e.2.mPool == none && !texDtorUnregisters e.2) = true
    ∧ ((teardown p).mBuffers.all fun e =>
        e.2.mPool == none && !bufDtorUnregisters e.2) = true
    ∧ (teardown p).mTextures.map
        (fun e => (e.1, e.2.mIsFree, e.2.texture, e.2.renderTexture))
      = p.mTextures.map
        (fun e => (e.1, e.2.mIsFree, e.2.texture, e.2.renderTexture))
    ∧ (teardown p).mBuffers.map (fun e => (e.1, e.2.mIsFree, e.2.buffer))
      = p.mBuffers.map (fun e => (e.1, e.2.mIsFree, e.2.buffer)) := by
  refine ⟨?_, ?_, ?_, ?_⟩ <;>
    simp [teardown, texDtorUnregisters, bufDtorUnregisters, List.all_map,
      List.map_map, Function.comp]

/-- C10: releasing a registered wrapper sets its free flag and changes
nothing else (other entries, the other map and the id allocator are
untouched, and the wrapper's handles are preserved), and releasing twice
equals releasing once. -/
theorem releaseTex_idem_list (l : List (Nat × PooledRenderTexture))
    (id : Nat) :
    setEntry id (fun w => { w with mIsFree := true })
      (setEntry id (fun w => { w with mIsFree := true }) l)
    = setEntry id (fun w => { w with mIsFree := true }) l := by
  rw [setEntry_setEntry]

theorem releaseBuf_idem_list (l : List (Nat × PooledStorageBuffer))
    (id : Nat) :
    setEntry id (fun w => { w with mIsFree := true })
      (setEntry id (fun w => { w with mIsFree := true }) l)
    = setEntry id (fun w => { w with mIsFree := true }) l := by
  rw [setEntry_setEntry]

theorem pool_release_only_sets_free (p : GpuResourcePool) (id : Nat)
    (hndT : (p.mTextures.map Prod.fst).Nodup)
    (hndB : (p.mBuffers.map Prod.fst).Nodup) :
    (∀ w : PooledRenderTexture, (id, w) ∈ p.mTextures →
      (releaseTex p id).mTextures.lookup id = some { w with mIsFree := true }
      ∧ (∀ e ∈ p.mTextures, e.1 ≠ id → e ∈ (releaseTex p id).mTextures)
      ∧ (releaseTex p id).mBuffers = p.mBuffers
      ∧ (releaseTex p id).nextId = p.nextId
      ∧ releaseTex (releaseTex p id) id = releaseTex p id)
    ∧ (∀ w : PooledStorageBuffer, (id, w) ∈ p.mBuffers →
      (releaseBuf p id).mBuffers.lookup id = some { w with mIsFree := true }
      ∧ (∀ e ∈ p.mBuffers, e.1 ≠ id → e ∈ (releaseBuf p id).mBuffers)
      ∧ (releaseBuf p id).mTextures = p.mTextures
      ∧ (releaseBuf p id).nextId = p.nextId
      ∧ releaseBuf (releaseBuf p id) id = releaseBuf p id) := by
  have hrelT : (releaseTex p id).mTextures
      = setEntry id (fun w => { w with mIsFree := true }) p.mTextures := rfl
  have hrelB : (releaseBuf p id).mBuffers
      = setEntry id (fun w => { w with mIsFree := true }) p.mBuffers := rfl
  constructor
  · intro w hw
    refine ⟨?_, ?_, rfl, rfl, ?_⟩
    · rw [hrelT, lookup_setEntry, lookup_eq_of_mem _ hndT hw]
      rfl
    · intro e he hne
      rw [hrelT]
      exact mem_setEntry_of_ne _ _ _ _ he hne
    · exact congrArg (fun l => GpuResourcePool.mk l p.mBuffers p.nextId)
        (releaseTex_idem_list p.mTextures id)
  · intro w hw
    refine ⟨?_, ?_, rfl, rfl, ?_⟩
    · rw [hrelB, lookup_setEntry, lookup_eq_of_mem _ hndB hw]
      rfl
    · intro e he hne
      rw [hrelB]
      exact mem_setEntry_of_ne _ _ _ _ he hne
    · exact congrArg (fun l => GpuResourcePool.mk p.mTextures l p.nextId)
        (releaseBuf_idem_list p.mBuffers id)

/-- Busy texture wrapper used by the release scenario. -/
def busyTexWrapper : PooledRenderTexture :=
  { mPool := some (), mIsFree := false, texture := none,
    renderTexture := false }

/-- Single-wrapper pool used by the release scenario. -/
def onePool : GpuResourcePool :=
  { mTextures := [(0, busyTexWrapper)], mBuffers := [], nextId := 1 }

/-- C10 witness: releasing the registered wrapper of the single-wrapper
pool yields the same wrapper with the free flag set. -/
theorem pool_release_only_sets_free_witness :
    (releaseTex onePool 0).mTextures.lookup 0
      = some { busyTexWrapper with mIsFree := true } :=
  ((pool_release_only_sets_free onePool 0 (by decide) (by decide)).1
    busyTexWrapper (by decide)).1

end Banshee

namespace Banshee

/-- C3 (amended): when the cutting range lies entirely before the cut range
on the layer axis (a special case of non-intersection) and the cut range
has a positive layer extent, cutRange returns exactly the single original
rectangle, unchanged. -/
theorem cutRange_disjoint_before_eq (R Q : VkImageSubresourceRange)
    (hpos : 0 < R.layerCount)
    (hbefore : Q.baseArrayLayer + Q.layerCount ≤ R.baseArrayLayer) :
    cutRange R Q = [R] := by
  have h1 : cutHorizontal R Q = [R] := by
    simp only [cutHorizontal]
    split_ifs <;> first | rfl | omega | simp_all
  simp only [cutRange, h1, List.flatMap_cons, List.flatMap_nil,
    List.append_nil]
  rw [if_neg (by omega)]

/-- C3 witness: the amended theorem at a concrete pair of ranges. -/
theorem cutRange_disjoint_before_eq_witness :
    cutRange ⟨4, 4, 0, 1⟩ ⟨0, 2, 0, 1⟩ = [⟨4, 4, 0, 1⟩] :=
  cutRange_disjoint_before_eq ⟨4, 4, 0, 1⟩ ⟨0, 2, 0, 1⟩
    (by decide) (by decide)

end Banshee
